import Mathlib

/-!
Verification of the extraction-normalization-resume pipeline of the
linkedin-profile-scraper repository, shallowly embedded in Lean.

The embedding follows the Python sources:
  * `src/data_calculator.py`  — date parsing, duration arithmetic, fuzzy
    school matching, and `extract_profile_fields`;
  * `src/main.py`             — the orchestrator loop and `_save_batch`;
  * `src/csv_exporter.py`     — the record sink operations;
  * `src/profile_processor.py`— the retrying fetch executor.

Modelling conventions:
  * Python values occurring in raw profile payloads are modelled by `PyVal`
    (strings, integers, `None`, lists, dicts).  Python truthiness and
    `str()` are modelled by `pyTruthy` and `pyStr`; the `repr` used by
    `str()` on containers is modelled without Python's escaping of quote
    characters, which no theorem in this file exercises.
  * `datetime.now()` is modelled by a fixed date parameter `now` carried in
    the calculator structure (fixed-"now" idealization: every call made
    while one record is processed sees the same instant).
  * Floating point: every number the pipeline produces is a multiple of 0.5
    obtained from exact operations (`round(m/6)/2` on whole-month counts and
    sums thereof), all of which are exact in IEEE doubles for the attainable
    magnitudes, so durations are modelled by `ℚ`.  Python's `round`
    (banker's rounding, ties to even) is modelled by `pyRound`.
  * `dateutil.parser.parse(s, fuzzy=True)` is an external library; it is
    modelled by `dateutilParse`, a fragment faithful on the string shapes
    the theorems below touch: a bare 4-digit year token (dateutil fills the
    missing month and day from the default, today, clamping the day to the
    month length) and a "<month-name> <4-digit-year>" pair.  All other
    strings are unparsable in the model; no theorem quantifies over strings
    outside this fragment except under an explicit hypothesis about the
    modelled parser's outcome.
  * `fuzzywuzzy`'s `fuzz.token_sort_ratio` scorer is an external library; it
    is a parameter `scorer` of the calculator, and `process.extractOne`
    (best score wins, first-listed wins ties, never `None` on a non-empty
    choice list) is modelled by `extractOne`.
  * Python `str.lower`/`str.strip` are modelled on ASCII (`lowerChar`,
    `trimChars`); no theorem exercises non-ASCII case folding.
-/

/-- A Python value as it occurs in raw profile payloads: a string, an
integer, `None`, a list, or a string-keyed dict. -/
inductive PyVal where
  | str (s : String)
  | int (n : Int)
  | noneV
  | list (items : List PyVal)
  | dict (entries : List (String × PyVal))
deriving Repr

/-- Python truthiness (`bool(v)`): empty strings/containers, `0` and `None`
are falsy. -/
def pyTruthy : PyVal → Bool
  | .str s => !s.isEmpty
  | .int n => n != 0
  | .noneV => false
  | .list l => !l.isEmpty
  | .dict l => !l.isEmpty

/-- A single-quote character, used when rendering Python `repr` of strings
inside containers. -/
def pyQuote : String := String.singleton (Char.ofNat 39)

mutual

/-- Python `repr(v)` (string quoting modelled without escaping, which no
theorem exercises). -/
def pyRepr : PyVal → String
  | .str s => pyQuote ++ s ++ pyQuote
  | .int n => toString n
  | .noneV => "None"
  | .list items => "[" ++ String.intercalate ", " (pyReprList items) ++ "]"
  | .dict kvs => "\x7b" ++ String.intercalate ", " (pyReprKVs kvs) ++ "\x7d"

/-- `repr` of each element of a Python list. -/
def pyReprList : List PyVal → List String
  | [] => []
  | v :: vs => pyRepr v :: pyReprList vs

/-- `repr` of each key-value pair of a Python dict. -/
def pyReprKVs : List (String × PyVal) → List String
  | [] => []
  | (k, v) :: kvs => (pyQuote ++ k ++ pyQuote ++ ": " ++ pyRepr v) :: pyReprKVs kvs

end

/-- Python `str(v)`. -/
def pyStr : PyVal → String
  | .str s => s
  | v => pyRepr v

/-- `kvs[k]` lookup in a Python dict (first binding wins; Python dicts have
unique keys). -/
def lookupKey (kvs : List (String × PyVal)) (k : String) : Option PyVal :=
  (kvs.find? (fun p => p.1 == k)).map (·.2)

/-- Python `d.get(k, default)`: the stored value when the key is present
(even if falsy), the default otherwise. -/
def dictGet (kvs : List (String × PyVal)) (k : String) (d : PyVal) : PyVal :=
  match lookupKey kvs k with
  | some v => v
  | none => d

/-- Nested `d.get(k1, d.get(k2, ... , ''))` alias resolution: the first
present key wins, `''` when none is present. -/
def getFirst (kvs : List (String × PyVal)) : List String → PyVal
  | [] => .str ""
  | k :: ks =>
    match lookupKey kvs k with
    | some v => v
    | none => getFirst kvs ks

/-- ASCII whitespace as recognized by Python `str.strip()`. -/
def isWs (c : Char) : Bool :=
  c == ' ' || c == '\t' || c == '\n' || c == '\r' || c == '\x0b' || c == '\x0c'

/-- ASCII lower-casing of one character (Python `str.lower` restricted to
ASCII, which is all the theorems exercise). -/
def lowerChar (c : Char) : Char :=
  if 65 ≤ c.toNat ∧ c.toNat ≤ 90 then Char.ofNat (c.toNat + 32) else c

/-- Python `str.strip()` on a character list. -/
def trimChars (l : List Char) : List Char :=
  ((l.dropWhile isWs).reverse.dropWhile isWs).reverse

/-- ASCII decimal digit test. -/
def isDigitChar (c : Char) : Bool :=
  48 ≤ c.toNat && c.toNat ≤ 57

/-- Numeric value of a digit string. -/
def digitsToNat (l : List Char) : Nat :=
  l.foldl (fun acc c => acc * 10 + (c.toNat - 48)) 0

/-- Whether a token is exactly four ASCII digits (`re.match(r'^\d\x7b4\x7d$', s)`). -/
def fourDigits (l : List Char) : Bool :=
  l.length == 4 && l.all isDigitChar

/-- `startsWithChars n h`: the needle `n` is a prefix of `h`. -/
def startsWithChars : List Char → List Char → Bool
  | [], _ => true
  | _ :: _, [] => false
  | a :: as, b :: bs => a == b && startsWithChars as bs

/-- `containsChars n h`: the needle `n` occurs as a contiguous run in `h`
(Python `n in h` on strings). -/
def containsChars : List Char → List Char → Bool
  | n, [] => n.isEmpty
  | n, h :: hs => startsWithChars n (h :: hs) || containsChars n hs

/-- Python substring test `needle in hay`. -/
def strContains (hay needle : String) : Bool :=
  containsChars needle.data hay.data

/-- Python `s.lower()` (ASCII). -/
def lowerStr (s : String) : String :=
  ⟨s.data.map lowerChar⟩

/-- Python `s.strip()`. -/
def trimStr (s : String) : String :=
  ⟨trimChars s.data⟩

/-- A Python `datetime` restricted to its date components, which are the
only components the pipeline reads. -/
structure PyDate where
  year : Int
  month : Int
  day : Int
deriving Repr, DecidableEq

/-- `datetime` comparison `a < b` (lexicographic on the components). -/
def dateLT (a b : PyDate) : Bool :=
  a.year < b.year ||
    (a.year == b.year &&
      (a.month < b.month || (a.month == b.month && a.day < b.day)))

/-- Gregorian leap-year test (as used by Python's `calendar.monthrange`). -/
def isLeap (y : Int) : Bool :=
  (y % 4 == 0 && y % 100 != 0) || y % 400 == 0

/-- Number of days in a month. -/
def daysInMonth (y m : Int) : Int :=
  if m == 2 then (if isLeap y then 29 else 28)
  else if m == 4 || m == 6 || m == 9 || m == 11 then 30
  else 31

/-- Python whitespace-run split `s.split()` on a character list. -/
def splitWsAux : List Char → List Char → List (List Char)
  | [], cur => if cur.isEmpty then [] else [cur.reverse]
  | c :: rest, cur =>
    if isWs c then
      (if cur.isEmpty then splitWsAux rest [] else cur.reverse :: splitWsAux rest [])
    else splitWsAux rest (c :: cur)

/-- Split a character list into whitespace-separated tokens. -/
def splitWs (l : List Char) : List (List Char) :=
  splitWsAux l []

/-- Month number for a lower-case month-name token known to
`dateutil.parser` (full names and their standard abbreviations). -/
def monthFromName (w : List Char) : Option Int :=
  let s : String := ⟨w⟩
  if s == "jan" || s == "january" then some 1
  else if s == "feb" || s == "february" then some 2
  else if s == "mar" || s == "march" then some 3
  else if s == "apr" || s == "april" then some 4
  else if s == "may" then some 5
  else if s == "jun" || s == "june" then some 6
  else if s == "jul" || s == "july" then some 7
  else if s == "aug" || s == "august" then some 8
  else if s == "sep" || s == "sept" || s == "september" then some 9
  else if s == "oct" || s == "october" then some 10
  else if s == "nov" || s == "november" then some 11
  else if s == "dec" || s == "december" then some 12
  else none

/-- Modelled fragment of `dateutil.parser.parse("<month> <year>")`: the
named month and year, the day filled from the default (today) and clamped
to the month length, exactly as dateutil's `_build_naive` does. -/
def dateutilMonthYear (now : PyDate) (w y : List Char) : Option PyDate :=
  match monthFromName w with
  | some m =>
    if fourDigits y then
      let n := digitsToNat y
      if 1 ≤ n ∧ n ≤ 9999 then
        some ⟨(n : Int), m, min now.day (daysInMonth (n : Int) m)⟩
      else none
    else none
  | none => none

/-- Modelled fragment of `dateutil.parser.parse(s, fuzzy=True)` with
default = today: a bare 4-digit year token yields that year with today's
month and day (day clamped to the month length); a
"<month-name> <4-digit-year>" token pair yields the first-of-that-month
semantics with today's day clamped.  Other strings are unparsable in the
model. -/
def dateutilParse (now : PyDate) (cs : List Char) : Option PyDate :=
  if fourDigits cs then
    let n := digitsToNat cs
    if 1 ≤ n ∧ n ≤ 9999 then
      some ⟨(n : Int), now.month, min now.day (daysInMonth (n : Int) now.month)⟩
    else none
  else
    match splitWs cs with
    | [a, b] => dateutilMonthYear now a b
    | _ => none

/-- The fallback `re.search(r'(\w+)\s+(\d\x7b4\x7d)', s)` of
`_parse_date`, modelled on whitespace-separated tokens: the first adjacent
token pair whose first token is word characters and whose second token is
exactly four digits. -/
def wordYearSearch : List (List Char) → Option (List Char × List Char)
  | a :: b :: rest =>
    if !a.isEmpty && a.all (fun c => c.isAlpha || isDigitChar c || c == '_')
        && fourDigits b then
      some (a, b)
    else wordYearSearch (b :: rest)
  | _ => none

/-- `ProfileDataCalculator._parse_date` (src/data_calculator.py, lines
65-99): empty input is unparsable; the trimmed lower-cased string
"present"/"current"/"now" is today; otherwise `dateutil` fuzzy parsing is
tried FIRST, and only when it fails are the manual rules tried: a bare
4-digit year becomes January 1 of that year (years outside `datetime`'s
1..9999 raise and yield `None`), then a "<word> <4-digit>" search is
re-parsed through dateutil.  Everything else is `None`. -/
def parse_date (now : PyDate) (s0 : String) : Option PyDate :=
  if s0.data.isEmpty then none
  else
    let cs := trimChars (s0.data.map lowerChar)
    if cs = "present".data ∨ cs = "current".data ∨ cs = "now".data then some now
    else
      match dateutilParse now cs with
      | some d => some d
      | none =>
        if fourDigits cs then
          let n := digitsToNat cs
          if 1 ≤ n ∧ n ≤ 9999 then some ⟨(n : Int), 1, 1⟩ else none
        else
          match wordYearSearch (splitWs cs) with
          | some (w, y) => dateutilMonthYear now w y
          | none => none

/-- Python 3 `round` on a rational: nearest integer, ties to even. -/
def pyRound (q : ℚ) : Int :=
  let f := q.floor
  if q - f < 1 / 2 then f
  else if (1 : ℚ) / 2 < q - f then f + 1
  else if f % 2 == 0 then f else f + 1

/-- `ProfileDataCalculator._calculate_duration` (src/data_calculator.py,
lines 101-128): `0.0` when the start is unparsable; the current instant
substituted when the end is unparsable; otherwise the whole-month
difference divided by 12 and rounded to the nearest half
(`round(years * 2) / 2`, years*2 = months/6). -/
def calculate_duration (now : PyDate) (start_s end_s : String) : ℚ :=
  match parse_date now start_s with
  | none => 0
  | some st =>
    let en := (parse_date now end_s).getD now
    let months : Int := (en.year - st.year) * 12 + (en.month - st.month)
    ((pyRound ((months : ℚ) / 6) : ℚ)) / 2

/-- The calculator's run-wide context: the three target lists (loaded once;
a missing file degrades to the empty list), the external similarity scorer
(`fuzz.token_sort_ratio` composed with `process`'s default pre-processing),
and the fixed current instant. -/
structure Calc where
  target_schools : List String
  target_companies : List String
  food_retailers : List String
  scorer : String → String → Nat
  now : PyDate

/-- The scan `fuzzywuzzy.process.extractOne` performs over the remaining
choices: keep the higher score, the earlier-listed choice on ties. -/
def extractBest (f : String → String → Nat) (q : String)
    (best : String × Nat) : List String → String × Nat
  | [] => best
  | c :: cs =>
    if best.2 < f q c then extractBest f q (c, f q c) cs
    else extractBest f q best cs

/-- `fuzzywuzzy.process.extractOne(q, choices, scorer)` with the default
`score_cutoff = 0`: `None` on an empty choice list, otherwise the
best-scoring choice (first-listed wins ties) with its score. -/
def extractOne (f : String → String → Nat) (q : String) :
    List String → Option (String × Nat)
  | [] => none
  | c :: cs => some (extractBest f q (c, f q c) cs)

/-- `ProfileDataCalculator._fuzzy_match_school` (src/data_calculator.py,
lines 130-158): `None` for an empty name, otherwise the best fuzzy match
over the target schools, accepted exactly when its score is at least 85. -/
def fuzzy_match_school (C : Calc) (school_name : String) : Option String :=
  if school_name = "" then none
  else
    match extractOne C.scorer school_name C.target_schools with
    | some (m, score) => if 85 ≤ score then some m else none
    | none => none

/-- `ProfileDataCalculator._is_target_company` (src/data_calculator.py,
lines 160-167): case-insensitive mutual-substring test against the target
companies. -/
def is_target_company (C : Calc) (company_name : String) : Bool :=
  if company_name = "" then false
  else
    let cl := trimStr (lowerStr company_name)
    C.target_companies.any (fun t =>
      strContains cl (lowerStr t) || strContains (lowerStr t) cl)

/-- `ProfileDataCalculator._is_food_retailer` (src/data_calculator.py,
lines 169-176). -/
def is_food_retailer (C : Calc) (company_name : String) : Bool :=
  if company_name = "" then false
  else
    let cl := trimStr (lowerStr company_name)
    C.food_retailers.any (fun t =>
      strContains cl (lowerStr t) || strContains (lowerStr t) cl)

/-- `_extract_experience_data` / `_extract_education_data` key scan: the
first key bound to a list wins; a key bound to anything else falls through
to the next key.  (The source additionally tries `json.loads` on a string
value; string-encoded lists are not modelled — every theorem below passes
structured payloads.) -/
def extractListField (profile : List (String × PyVal)) : List String → List PyVal
  | [] => []
  | k :: ks =>
    match lookupKey profile k with
    | some (.list l) => l
    | _ => extractListField profile ks

/-- `_extract_experience_data` (src/data_calculator.py, lines 178-204). -/
def extract_experience_data (profile : List (String × PyVal)) : List PyVal :=
  extractListField profile ["experience", "positions", "work_history", "experiences"]

/-- `_extract_education_data` (src/data_calculator.py, lines 206-228). -/
def extract_education_data (profile : List (String × PyVal)) : List PyVal :=
  extractListField profile ["education", "schools", "educations"]

/-- Resolution of a company/school-like field: alias-priority lookup, a
dict is replaced by its `name` entry, then `str(...).strip()`. -/
def resolveNamed (kvs : List (String × PyVal)) (keys : List String) : String :=
  let v := getFirst kvs keys
  let v := match v with
    | .dict inner => dictGet inner "name" (.str "")
    | w => w
  trimStr (pyStr v)

/-- Resolution of a start/end date field: alias-priority lookup, a dict
`\x7bmonth, year\x7d` is joined as `f"\x7bmonth\x7d \x7byear\x7d".strip()`, then
`str(v) if v else ""` (so falsy values become the empty string). -/
def resolveDateField (kvs : List (String × PyVal)) (keys : List String) : String :=
  let v := getFirst kvs keys
  let v := match v with
    | .dict inner =>
      PyVal.str (trimStr
        (pyStr (dictGet inner "month" (.str "")) ++ " " ++
          pyStr (dictGet inner "year" (.str ""))))
    | w => w
  if pyTruthy v then pyStr v else ""

/-- The start string of one experience entry (src/data_calculator.py,
lines 327-336). -/
def expStartStr (kvs : List (String × PyVal)) : String :=
  resolveDateField kvs ["start", "startDate", "start_date"]

/-- The end string of one experience entry (src/data_calculator.py,
lines 328-337). -/
def expEndStr (kvs : List (String × PyVal)) : String :=
  resolveDateField kvs ["end", "endDate", "end_date"]

/-- The company string of one experience entry (src/data_calculator.py,
lines 317-320). -/
def expCompany (kvs : List (String × PyVal)) : String :=
  resolveNamed kvs ["company", "companyName", "organization"]

/-- The title string of one experience entry (src/data_calculator.py,
lines 323-324). -/
def expTitle (kvs : List (String × PyVal)) : String :=
  trimStr (pyStr (getFirst kvs ["title", "position", "role"]))

/-- The duration charged to one experience entry
(`self._calculate_duration(start, end) if start else 0.0`,
src/data_calculator.py, line 340). -/
def expDuration (C : Calc) (kvs : List (String × PyVal)) : ℚ :=
  if expStartStr kvs ≠ "" then
    calculate_duration C.now (expStartStr kvs) (expEndStr kvs)
  else 0

/-- The end instant an experience entry competes with for
`current_company` (`self._parse_date(end) if end else datetime.now()`,
src/data_calculator.py, line 344): a missing/empty end is "now", a
non-empty unparsable end is `None`. -/
def expEndInstant (C : Calc) (kvs : List (String × PyVal)) : Option PyDate :=
  if expEndStr kvs ≠ "" then parse_date C.now (expEndStr kvs) else some C.now

/-- Accumulator of the experience loop of `extract_profile_fields`
(src/data_calculator.py, lines 305-310). -/
structure ExpState where
  titles : List String
  total : ℚ
  targetYears : ℚ
  foodYears : ℚ
  current : String
  mostRecent : Option PyDate
deriving Repr, DecidableEq

/-- One iteration of the experience loop (src/data_calculator.py, lines
312-357): non-dict entries are skipped; the duration is added to the total
unconditionally; the entry takes over `current_company` exactly when its
end instant parses and is strictly greater than the best seen so far (or
none was seen); target-company entries contribute title and duration;
food-retailer entries contribute duration. -/
def expStep (C : Calc) (st : ExpState) : PyVal → ExpState
  | .dict kvs =>
    let company := expCompany kvs
    let title := expTitle kvs
    let duration := expDuration C kvs
    let tracked :=
      match expEndInstant C kvs with
      | some d =>
        match st.mostRecent with
        | none => (some d, company)
        | some m => if dateLT m d then (some d, company) else (st.mostRecent, st.current)
      | none => (st.mostRecent, st.current)
    let targeted :=
      if is_target_company C company then
        ((if title ≠ "" then st.titles ++ [title] else st.titles),
          st.targetYears + duration)
      else (st.titles, st.targetYears)
    let fy := if is_food_retailer C company then st.foodYears + duration else st.foodYears
    ⟨targeted.1, st.total + duration, targeted.2, fy, tracked.2, tracked.1⟩
  | _ => st

/-- The school string of one education entry (src/data_calculator.py,
lines 374-377). -/
def eduSchool (kvs : List (String × PyVal)) : String :=
  resolveNamed kvs ["school", "schoolName", "institution"]

/-- The fuzzy match one school contributes to `target_school`
(src/data_calculator.py, lines 383-386): the match is stored only when it
is truthy (`if matched:`), so an empty matched name is never stored. -/
def acceptedMatch (C : Calc) (school : String) : Option String :=
  match fuzzy_match_school C school with
  | some m => if m = "" then none else some m
  | none => none

/-- One iteration of the education loop (src/data_calculator.py, lines
370-386): non-dict entries and empty school names are skipped; the school
is appended to the roster; the target school is set from the first truthy
fuzzy match (`if not target_school:`) and never overridden afterwards. -/
def eduStep (C : Calc) (st : List String × Option String) : PyVal → List String × Option String
  | .dict kvs =>
    let school := eduSchool kvs
    if school ≠ "" then
      let tgt :=
        match st.2 with
        | some t => some t
        | none => acceptedMatch C school
      (st.1 ++ [school], tgt)
    else st
  | _ => st

/-- The canonical 13-field record (src/csv_exporter.py COLUMN_HEADERS order,
initialized at src/data_calculator.py lines 247-261). -/
structure CanonicalRecord where
  name : String
  job_titles_at_target_companies : String
  total_years_experience : ℚ
  years_at_target_companies : ℚ
  current_company : String
  linkedin_url : String
  schools_attended : String
  target_school : String
  spoken_languages : String
  english_flag : String
  city_location : String
  paris_flag : String
  years_at_food_retailers : ℚ
deriving Repr, DecidableEq

/-- `for key in keys: if key in profile and profile[key]` — the first
present AND truthy key (a present falsy value falls through). -/
def firstTruthy (profile : List (String × PyVal)) (keys : List String) : Option PyVal :=
  keys.findSome? (fun k =>
    (lookupKey profile k).bind (fun v => if pyTruthy v then some v else none))

/-- `for key in keys: if key in profile` — the first present key,
regardless of truthiness. -/
def firstPresent (profile : List (String × PyVal)) (keys : List String) : Option PyVal :=
  keys.findSome? (lookupKey profile)

/-- The `spoken_languages` field (src/data_calculator.py, lines 284-294):
the first present languages key; a list is joined with ", " mapping each
dict to its `name` (defaulting to the element itself), a string is taken
verbatim, any other type leaves the default empty string. -/
def resolveLanguages (profile : List (String × PyVal)) : String :=
  match firstPresent profile ["languages", "language", "languageSkills"] with
  | some (.list ls) =>
    String.intercalate ", " (ls.map (fun l =>
      match l with
      | .dict kvs => pyStr (dictGet kvs "name" (.dict kvs))
      | v => pyStr v))
  | some (.str s) => s
  | _ => ""

/-- `ProfileDataCalculator.extract_profile_fields` (src/data_calculator.py,
lines 230-391), taking the already-parsed profile dict and the profile URL
(`_parse_profile_data` on string payloads is not modelled; every theorem
below passes a structured dict, which that method returns unchanged). -/
def extract_profile_fields (C : Calc) (profile : List (String × PyVal))
    (url : String) : CanonicalRecord :=
  let name :=
    match firstTruthy profile ["name", "full_name", "fullName", "title"] with
    | some v => trimStr (pyStr v)
    | none => ""
  let city :=
    match firstTruthy profile ["location", "city", "region", "locality"] with
    | some v => trimStr (pyStr v)
    | none => ""
  let paris :=
    if city ≠ "" ∧
        (strContains (lowerStr city) "paris" ||
          strContains (lowerStr city) "île-de-france" ||
          strContains (lowerStr city) "ile-de-france") then
      "Paris et périphérie"
    else ""
  let spoken := resolveLanguages profile
  let english :=
    if spoken ≠ "" ∧
        (strContains (lowerStr spoken) "english" ||
          strContains (lowerStr spoken) "anglais") then
      "english"
    else ""
  let ex := (extract_experience_data profile).foldl (expStep C) ⟨[], 0, 0, 0, "", none⟩
  let ed := (extract_education_data profile).foldl (eduStep C) ([], none)
  ⟨name, String.intercalate ", " ex.titles, ex.total, ex.targetYears, ex.current,
    url, String.intercalate ", " ed.1, (ed.2).getD "", spoken, english, city, paris,
    ex.foodYears⟩

/-- The record sink (one CSV file): `none` when the file does not exist,
`some rows` when it exists with its header and data rows. -/
abbrev Sink := Option (List CanonicalRecord)

/-- `CSVExporter.export_to_csv` (src/csv_exporter.py, lines 65-118):
(re)creates the file with the header and exactly the given rows. -/
def export_to_csv (profiles : List CanonicalRecord) (_ : Sink) : Sink :=
  some profiles

/-- `CSVExporter.append_to_csv` (src/csv_exporter.py, lines 155-195):
appends one row, writing the header first when the file is new. -/
def append_to_csv (profile : CanonicalRecord) (sink : Sink) : Sink :=
  some (sink.getD [] ++ [profile])

/-- `CSVExporter.get_processed_urls` (src/csv_exporter.py, lines 221-246):
the truthy `linkedin_url` values of the existing rows; empty when the file
does not exist. -/
def get_processed_urls (sink : Sink) : List String :=
  match sink with
  | none => []
  | some rows => (rows.map (·.linkedin_url)).filter (fun u => u != "")

/-- `LinkedInScraper._save_batch` (src/main.py, lines 168-183): in resume
mode with an existing file, EVERY profile of the accumulated list is
appended; otherwise the file is (re)written with exactly the accumulated
list. -/
def save_batch (resume : Bool) (profiles : List CanonicalRecord) (sink : Sink) : Sink :=
  if resume ∧ sink.isSome then profiles.foldl (fun s p => append_to_csv p s) sink
  else export_to_csv profiles sink

/-- State threaded through the orchestrator's progress callback:
the `processed_profiles` list, the sink, and — for the theorems — the sink
snapshot and the written-row count after each intermediate batch save. -/
structure RunState where
  processed : List CanonicalRecord
  sink : Sink
  snaps : List Sink
  sizes : List Nat
deriving Repr, DecidableEq

/-- The outcome of fetching one URL, as seen by the progress callback:
`some profile` models `\x7b"success": True, "raw_data": ..., "url": u\x7d` with
the payload already parsed to a dict, `none` models a falsy or
unsuccessful `profile_data`. -/
abbrev FetchOutcome := Option (List (String × PyVal))

/-- `progress_callback` of `LinkedInScraper.scrape_profiles` (src/main.py,
lines 112-131): on success, extract the record, append it to
`processed_profiles`, and when the accumulated length is a multiple of the
batch size, save the WHOLE accumulated list; on failure, only log. -/
def runStep (C : Calc) (batch_size : Nat) (resume : Bool)
    (fetch : String → FetchOutcome) (st : RunState) (url : String) : RunState :=
  match fetch url with
  | some profile =>
    let r := extract_profile_fields C profile url
    let ps := st.processed ++ [r]
    if ps.length % batch_size = 0 then
      let s := save_batch resume ps st.sink
      ⟨ps, s, st.snaps ++ [s], st.sizes ++ [ps.length]⟩
    else ⟨ps, st.sink, st.snaps, st.sizes⟩
  | none => st

/-- The observable outcome of one run: the sink after each intermediate
batch save, the rows written by each, the final sink, and the row count of
the final export (`none` when nothing was processed). -/
structure RunResult where
  snaps : List Sink
  sizes : List Nat
  finalSink : Sink
  finalSize : Option Nat
deriving Repr, DecidableEq

/-- `LinkedInScraper.scrape_profiles` (src/main.py, lines 60-166): in
resume mode the already-exported URLs are read from the sink and (when
that set is non-empty) filtered out of the Discovery output; each remaining
URL is fetched; successes are normalized and batch-saved every
`batch_size` accumulated records; at the end, when anything was processed,
`export_to_csv` rewrites the sink with exactly the run's
`processed_profiles`. -/
def scrape_profiles (C : Calc) (batch_size : Nat) (resume : Bool)
    (urls : List String) (fetch : String → FetchOutcome) (sink0 : Sink) : RunResult :=
  let processedSet := if resume then get_processed_urls sink0 else []
  let urls1 :=
    if processedSet.isEmpty then urls
    else urls.filter (fun u => !processedSet.contains u)
  if urls1.isEmpty then ⟨[], [], sink0, none⟩
  else
    let st := urls1.foldl (runStep C batch_size resume fetch) ⟨[], sink0, [], []⟩
    if st.processed.isEmpty then ⟨st.snaps, st.sizes, st.sink, none⟩
    else ⟨st.snaps, st.sizes, export_to_csv st.processed st.sink, some st.processed.length⟩

/-- One attempt of the MCP call made by `fetch_profile`: an exception, or a
result whose `content` is the given list of text blocks. -/
inductive AttemptOut where
  | err (msg : String)
  | resp (content : List String)
deriving Repr, DecidableEq

/-- The dict `LinkedInProfileProcessor.fetch_profile` returns (src/
profile_processor.py, lines 134-138 and 149-154). -/
structure FetchReturn where
  url : String
  raw_data : Option String
  success : Bool
  error : Option String
deriving Repr, DecidableEq

/-- The retry loop of `fetch_profile` (src/profile_processor.py, lines
108-156), one constructor per remaining fuel unit, starting attempt `i`
of `max_retries`: a response with non-empty content returns a success
dict; a response with EMPTY content returns Python `None` immediately
(line 141) — no retry, no failure dict; an exception retries, and on the
last attempt (`attempt == max_retries - 1`) returns a failure dict
carrying the URL and the last error. -/
def fetchGo (oracle : Nat → AttemptOut) (url : String) (max_retries : Nat) :
    Nat → Nat → Option FetchReturn
  | _, 0 => none
  | i, fuel + 1 =>
    match oracle i with
    | .resp [] => none
    | .resp (t :: _) => some ⟨url, some t, true, none⟩
    | .err e =>
      if i + 1 = max_retries then some ⟨url, none, false, some e⟩
      else fetchGo oracle url max_retries (i + 1) fuel

/-- `LinkedInProfileProcessor.fetch_profile` (src/profile_processor.py,
lines 95-156): the retry loop over `range(max_retries)`, with the per-url
attempt oracle standing for `session.call_tool`. -/
def fetch_profile (max_retries : Nat) (oracle : Nat → AttemptOut)
    (url : String) : Option FetchReturn :=
  fetchGo oracle url max_retries 0 max_retries

/-- `LinkedInProfileProcessor.fetch_profiles_batch` (src/profile_processor.
py, lines 158-186): every URL is processed in order, one result appended
per URL, each fed to the progress callback. -/
def fetch_profiles_batch (max_retries : Nat)
    (oracle : String → Nat → AttemptOut) (urls : List String) :
    List (Option FetchReturn) :=
  urls.map (fun u => fetch_profile max_retries (oracle u) u)

/-- The school string an education entry contributes to the loop, when it
contributes at all (non-dict entries and empty names are skipped). -/
def eduSchoolOf : PyVal → Option String
  | .dict kvs =>
    let s := eduSchool kvs
    if s = "" then none else some s
  | _ => none

/-- A rational is a whole multiple of one half. -/
def isHalfMultiple (q : ℚ) : Prop := ∃ k : ℤ, q = (k : ℚ) / 2

/-- A concrete "today" used by the concrete-input theorems: 2024-06-15. -/
def demoNow : PyDate := ⟨2024, 6, 15⟩

/-- A calculator whose three target lists are empty and whose scorer is
irrelevant to the payloads it is applied to. -/
def demoCalc : Calc := ⟨[], [], [], fun _ _ => 0, demoNow⟩

/-- First experience entry of the tie payload: at "Acme" from 2019 to
2020. -/
def tieEntry1 : List (String × PyVal) :=
  [("company", .str "Acme"), ("start", .str "2019"), ("end", .str "2020")]

/-- Second experience entry of the tie payload: at "Beta", same dates. -/
def tieEntry2 : List (String × PyVal) :=
  [("company", .str "Beta"), ("start", .str "2019"), ("end", .str "2020")]

/-- A profile whose two experience entries resolve to the same end
instant. -/
def tieProfile : List (String × PyVal) :=
  [("experience", .list [.dict tieEntry1, .dict tieEntry2])]

/-- A profile with one experience entry whose end (2019) parses to an
instant earlier than its start (2020). -/
def negProfile : List (String × PyVal) :=
  [("experience", .list
    [.dict [("company", .str "A"), ("start", .str "2020"), ("end", .str "2019")]])]

/-- A fetch oracle for the orchestrator scenarios: every URL succeeds with
an empty (all-defaults) profile payload. -/
def allSucceed : String → FetchOutcome := fun _ => some []

/-- An experience entry with a non-empty but unparsable end date. -/
def unparsableEndEntry : List (String × PyVal) :=
  [("company", .str "X"), ("start", .str "2020"), ("end", .str "unknown")]

/-- An experience entry with no end field at all. -/
def noEndEntry : List (String × PyVal) :=
  [("company", .str "Y"), ("start", .str "2020")]

/-- An experience-loop state whose most recent end is already the tie
instant 2020-06-15 at company "Acme". -/
def tieState : ExpState := ⟨[], 0, 0, 0, "Acme", some ⟨2020, 6, 15⟩⟩

/-- A calculator whose only target school is "Harvard University" and
whose scorer gives it 85 points against any query. -/
def harvardCalc : Calc :=
  ⟨["Harvard University"], [], [], fun _ c => if c = "Harvard University" then 85 else 0,
    ⟨2024, 1, 1⟩⟩

/-- Like `harvardCalc` but scoring 84, one below the threshold. -/
def harvardCalc84 : Calc :=
  ⟨["Harvard University"], [], [], fun _ c => if c = "Harvard University" then 84 else 0,
    ⟨2024, 1, 1⟩⟩

/-- An attempt oracle whose every call raises. -/
def allErrOracle : String → Nat → AttemptOut := fun _ _ => .err "boom"

/-- An attempt oracle whose every call returns a result with empty
content. -/
def emptyRespOracle : String → Nat → AttemptOut := fun _ _ => .resp []

/-- `dateLT` is irreflexive: a date is not strictly before itself. -/
theorem dateLT_irrefl (d : PyDate) : dateLT d d = false := by
  simp [dateLT]

/-- The best score seen so far never decreases along `extractOne`'s scan. -/
theorem extractBest_le (f : String → String → Nat) (q : String)
    (cs : List String) : ∀ best : String × Nat, best.2 ≤ (extractBest f q best cs).2 := by
  induction cs with
  | nil => intro best; simp [extractBest]
  | cons c cs ih =>
    intro best
    simp only [extractBest]
    split
    · exact le_trans (le_of_lt (by assumption)) (ih (c, f q c))
    · exact ih best

/-- Every remaining choice scores at most the score `extractOne` returns. -/
theorem extractBest_bound (f : String → String → Nat) (q : String)
    (cs : List String) : ∀ best : String × Nat, ∀ r ∈ cs, f q r ≤ (extractBest f q best cs).2 := by
  induction cs with
  | nil => intro best r hr; simp at hr
  | cons c cs ih =>
    intro best r hr
    rcases List.mem_cons.mp hr with rfl | hr
    · simp only [extractBest]
      split
      · exact extractBest_le f q cs (r, f q r)
      · exact le_trans (le_of_not_lt (by assumption)) (extractBest_le f q cs best)
    · simp only [extractBest]
      split
      · exact ih (c, f q c) r hr
      · exact ih best r hr

/-- A target already accepted survives the rest of the education loop. -/
theorem eduFold_some (C : Calc) (l : List PyVal) :
    ∀ (names : List String) (t : String),
      (l.foldl (eduStep C) (names, some t)).2 = some t := by
  induction l with
  | nil => intro names t; rfl
  | cons e l ih =>
    intro names t
    cases e with
    | dict kvs =>
      simp only [List.foldl_cons, eduStep]
      split
      · exact ih _ t
      · exact ih names t
    | str s => exact ih names t
    | int n => exact ih names t
    | noneV => exact ih names t
    | list items => exact ih names t

/-- Starting from no accepted target, the education loop accepts exactly
the first school whose fuzzy match is truthy. -/
theorem eduFold_none (C : Calc) (l : List PyVal) :
    ∀ names : List String,
      (l.foldl (eduStep C) (names, none)).2 =
        (l.filterMap eduSchoolOf).findSome? (acceptedMatch C) := by
  induction l with
  | nil => intro names; rfl
  | cons e l ih =>
    intro names
    cases e with
    | dict kvs =>
      by_cases hs : eduSchool kvs = ""
      · have h1 : eduStep C (names, none) (.dict kvs) = (names, none) := by
          simp [eduStep, hs]
        have h2 : eduSchoolOf (.dict kvs) = none := by
          simp [eduSchoolOf, hs]
        rw [List.foldl_cons, h1, List.filterMap_cons, h2]
        exact ih names
      · have h1 : eduStep C (names, none) (.dict kvs) =
            (names ++ [eduSchool kvs], acceptedMatch C (eduSchool kvs)) := by
          simp [eduStep, hs]
        have h2 : eduSchoolOf (.dict kvs) = some (eduSchool kvs) := by
          simp [eduSchoolOf, hs]
        rw [List.foldl_cons, h1, List.filterMap_cons, h2]
        cases ham : acceptedMatch C (eduSchool kvs) with
        | some m =>
          simp only [List.findSome?_cons, ham]
          exact eduFold_some C l _ m
        | none =>
          simp only [List.findSome?_cons, ham]
          exact ih _
    | str s => exact ih names
    | int n => exact ih names
    | noneV => exact ih names
    | list items => exact ih names

/-- Whatever the retry loop returns carries the URL it was given. -/
theorem fetchGo_url (oracle : Nat → AttemptOut) (url : String) (m : Nat) :
    ∀ fuel i r, fetchGo oracle url m i fuel = some r → r.url = url := by
  intro fuel
  induction fuel with
  | zero => intro i r h; simp [fetchGo] at h
  | succ fuel ih =>
    intro i r h
    cases ho : oracle i with
    | resp content =>
      cases content with
      | nil => simp [fetchGo, ho] at h
      | cons t ts =>
        simp only [fetchGo, ho, Option.some.injEq] at h
        rw [← h]
    | err e =>
      by_cases hi : i + 1 = m
      · simp only [fetchGo, ho, if_pos hi, Option.some.injEq] at h
        rw [← h]
      · simp only [fetchGo, ho, if_neg hi] at h
        exact ih (i + 1) r h

/-- When every attempt raises, the retry loop ends in a failure dict
carrying the last attempt's error. -/
theorem fetchGo_allerr (oracle : Nat → AttemptOut) (url : String) (m : Nat)
    (he : ∀ k, ∃ msg, oracle k = .err msg) :
    ∀ fuel i, i + fuel = m → 0 < fuel →
      ∃ msg, fetchGo oracle url m i fuel = some ⟨url, none, false, some msg⟩ ∧
        oracle (m - 1) = .err msg := by
  intro fuel
  induction fuel with
  | zero => intro i h0 hpos; omega
  | succ fuel ih =>
    intro i hsum hpos
    obtain ⟨msg, hmsg⟩ := he i
    by_cases hi : i + 1 = m
    · refine ⟨msg, ?_, ?_⟩
      · simp only [fetchGo, hmsg, if_pos hi]
      · rw [show m - 1 = i by omega]
        exact hmsg
    · have hf : 0 < fuel := by omega
      obtain ⟨msg2, h1, h2⟩ := ih (i + 1) (by omega) hf
      refine ⟨msg2, ?_, h2⟩
      simp only [fetchGo, hmsg, if_neg hi]
      exact h1

/-- Lower-casing fixes a digit. -/
theorem lowerChar_digit (c : Char) (h : isDigitChar c = true) : lowerChar c = c := by
  simp only [isDigitChar, Bool.and_eq_true, decide_eq_true_eq] at h
  rw [lowerChar, if_neg]
  omega

/-- A digit is not whitespace. -/
theorem isWs_digit (c : Char) (h : isDigitChar c = true) : isWs c = false := by
  simp only [isDigitChar, Bool.and_eq_true, decide_eq_true_eq] at h
  have h32 : (' ' : Char).toNat = 32 := rfl
  have h9 : ('\t' : Char).toNat = 9 := rfl
  have h10 : ('\n' : Char).toNat = 10 := rfl
  have h13 : ('\r' : Char).toNat = 13 := rfl
  have h11 : ('\x0b' : Char).toNat = 11 := rfl
  have h12 : ('\x0c' : Char).toNat = 12 := rfl
  simp only [isWs, Bool.or_eq_false_iff, beq_eq_false_iff_ne]
  refine ⟨⟨⟨⟨⟨?_, ?_⟩, ?_⟩, ?_⟩, ?_⟩, ?_⟩ <;>
    (intro he; rw [he] at h; omega)

/-- `dropWhile` is the identity when no element satisfies the predicate. -/
theorem dropWhile_of_all_false {p : Char → Bool} (l : List Char)
    (h : ∀ c ∈ l, p c = false) : l.dropWhile p = l := by
  cases l with
  | nil => rfl
  | cons c cs =>
    rw [List.dropWhile_cons, if_neg]
    rw [h c (by simp)]
    simp

/-- Stripping fixes an all-digit token. -/
theorem trimChars_of_digits (l : List Char) (h : ∀ c ∈ l, isDigitChar c = true) :
    trimChars l = l := by
  have hws : ∀ c ∈ l, isWs c = false := fun c hc => isWs_digit c (h c hc)
  rw [trimChars, dropWhile_of_all_false l hws,
    dropWhile_of_all_false l.reverse (fun c hc => hws c (List.mem_reverse.mp hc)),
    List.reverse_reverse]

/-- Lower-casing fixes an all-digit token. -/
theorem map_lower_of_digits (l : List Char) (h : ∀ c ∈ l, isDigitChar c = true) :
    l.map lowerChar = l := by
  induction l with
  | nil => rfl
  | cons c cs ih =>
    rw [List.map_cons, lowerChar_digit c (h c (by simp)),
      ih (fun x hx => h x (by simp [hx]))]

/-- The accumulator bound of the digit-string evaluation. -/
theorem digitsToNat_aux_lt (l : List Char) (h : ∀ c ∈ l, isDigitChar c = true) :
    ∀ acc : Nat,
      List.foldl (fun acc c => acc * 10 + (c.toNat - 48)) acc l < (acc + 1) * 10 ^ l.length := by
  induction l with
  | nil => intro acc; simp
  | cons c cs ih =>
    intro acc
    have hc := h c (by simp)
    have hd : c.toNat - 48 ≤ 9 := by
      simp only [isDigitChar, Bool.and_eq_true, decide_eq_true_eq] at hc
      omega
    have step := ih (fun x hx => h x (by simp [hx])) (acc * 10 + (c.toNat - 48))
    calc List.foldl (fun acc c => acc * 10 + (c.toNat - 48)) acc (c :: cs)
        = List.foldl (fun acc c => acc * 10 + (c.toNat - 48)) (acc * 10 + (c.toNat - 48)) cs := by
          rw [List.foldl_cons]
      _ < (acc * 10 + (c.toNat - 48) + 1) * 10 ^ cs.length := step
      _ ≤ ((acc + 1) * 10) * 10 ^ cs.length := by
          apply Nat.mul_le_mul_right
          omega
      _ = (acc + 1) * 10 ^ (c :: cs).length := by
          rw [List.length_cons]
          ring

/-- A 4-digit token's value is at most 9999 (so it is a valid `datetime`
year exactly when it is non-zero). -/
theorem digitsToNat_le_9999 (l : List Char) (h : ∀ c ∈ l, isDigitChar c = true)
    (h4 : l.length = 4) : digitsToNat l ≤ 9999 := by
  have := digitsToNat_aux_lt l h 0
  rw [h4] at this
  simp only [digitsToNat]
  omega

/-- Half-multiples are closed under zero. -/
theorem isHalfMultiple_zero : isHalfMultiple 0 :=
  ⟨0, by norm_num⟩

/-- Half-multiples are closed under addition. -/
theorem isHalfMultiple_add {a b : ℚ} (ha : isHalfMultiple a) (hb : isHalfMultiple b) :
    isHalfMultiple (a + b) := by
  obtain ⟨k, hk⟩ := ha
  obtain ⟨m, hm⟩ := hb
  exact ⟨k + m, by rw [hk, hm]; push_cast; ring⟩

/-- Every duration the calculator returns is a multiple of one half. -/
theorem calculate_duration_half (now : PyDate) (s e : String) :
    isHalfMultiple (calculate_duration now s e) := by
  cases h : parse_date now s with
  | none => simp only [calculate_duration, h]; exact isHalfMultiple_zero
  | some st =>
    simp only [calculate_duration, h]
    exact ⟨pyRound ((((((parse_date now e).getD now).year - st.year) * 12 +
      (((parse_date now e).getD now).month - st.month) : Int) : ℚ) / 6), rfl⟩

/-- The duration charged to one experience entry is a multiple of one
half. -/
theorem expDuration_half (C : Calc) (kvs : List (String × PyVal)) :
    isHalfMultiple (expDuration C kvs) := by
  rw [expDuration]
  split
  · exact calculate_duration_half C.now (expStartStr kvs) (expEndStr kvs)
  · exact isHalfMultiple_zero

/-- `expStep` adds the entry's duration to the total unconditionally. -/
theorem expStep_total (C : Calc) (st : ExpState) (kvs : List (String × PyVal)) :
    (expStep C st (.dict kvs)).total = st.total + expDuration C kvs := rfl

/-- `expStep` adds the entry's duration to the target-company years exactly
when the company matches the target list. -/
theorem expStep_targetYears (C : Calc) (st : ExpState) (kvs : List (String × PyVal)) :
    (expStep C st (.dict kvs)).targetYears =
      (if is_target_company C (expCompany kvs) then st.targetYears + expDuration C kvs
        else st.targetYears) := by
  by_cases h : is_target_company C (expCompany kvs) <;> simp [expStep, h]

/-- `expStep` adds the entry's duration to the food-retailer years exactly
when the company matches the food-retailer list. -/
theorem expStep_foodYears (C : Calc) (st : ExpState) (kvs : List (String × PyVal)) :
    (expStep C st (.dict kvs)).foodYears =
      (if is_food_retailer C (expCompany kvs) then st.foodYears + expDuration C kvs
        else st.foodYears) := by
  by_cases h : is_food_retailer C (expCompany kvs) <;> simp [expStep, h]

/-- The experience loop preserves half-multiplicity of all three year
accumulators. -/
theorem expFold_half (C : Calc) (l : List PyVal) :
    ∀ st : ExpState,
      isHalfMultiple st.total → isHalfMultiple st.targetYears → isHalfMultiple st.foodYears →
        isHalfMultiple (l.foldl (expStep C) st).total ∧
          isHalfMultiple (l.foldl (expStep C) st).targetYears ∧
          isHalfMultiple (l.foldl (expStep C) st).foodYears := by
  induction l with
  | nil => intro st h1 h2 h3; exact ⟨h1, h2, h3⟩
  | cons e l ih =>
    intro st h1 h2 h3
    rw [List.foldl_cons]
    cases e with
    | dict kvs =>
      apply ih
      · rw [expStep_total]
        exact isHalfMultiple_add h1 (expDuration_half C kvs)
      · rw [expStep_targetYears]
        split
        · exact isHalfMultiple_add h2 (expDuration_half C kvs)
        · exact h2
      · rw [expStep_foodYears]
        split
        · exact isHalfMultiple_add h3 (expDuration_half C kvs)
        · exact h3
    | str s => exact ih st h1 h2 h3
    | int n => exact ih st h1 h2 h3
    | noneV => exact ih st h1 h2 h3
    | list items => exact ih st h1 h2 h3

/-- C1 counterexample: two experience entries ("Acme" then "Beta") whose
end fields are the identical string "2020" resolve to the same end
instant, yet `extract_profile_fields` records the EARLIER-iterated entry
"Acme" as `current_company`, not the later-iterated "Beta" the claim
requires. -/
theorem c1_counterexample :
    expEndInstant demoCalc tieEntry1 = expEndInstant demoCalc tieEntry2 ∧
    expEndInstant demoCalc tieEntry1 = some ⟨2020, 6, 15⟩ ∧
    (extract_profile_fields demoCalc tieProfile "u").current_company = "Acme" ∧
    ("Acme" : String) ≠ "Beta" := by
  refine ⟨by decide, by decide, by decide, by decide⟩

/-- C1 (amended): the update condition is strictly greater
(`end_date > most_recent_end`), so when an entry's resolved end instant
EQUALS the best seen so far, the tracked `current_company` and most-recent
end are left unchanged — on ties the earlier-iterated entry wins. -/
theorem c1_tie_keeps_earlier_entry (C : Calc) (st : ExpState)
    (kvs : List (String × PyVal)) (d : PyDate)
    (h1 : expEndInstant C kvs = some d) (h2 : st.mostRecent = some d) :
    (expStep C st (.dict kvs)).current = st.current ∧
    (expStep C st (.dict kvs)).mostRecent = st.mostRecent := by
  simp [expStep, h1, h2, dateLT_irrefl]

/-- C1 witness: the tie entry "Beta" (end "2020") applied to a state whose
most recent end is already 2020-06-15 at "Acme" leaves the tracked company
unchanged. -/
theorem c1_tie_keeps_earlier_entry_witness :
    (expStep demoCalc tieState (.dict tieEntry2)).current = tieState.current ∧
    (expStep demoCalc tieState (.dict tieEntry2)).mostRecent = tieState.mostRecent :=
  c1_tie_keeps_earlier_entry demoCalc tieState tieEntry2 ⟨2020, 6, 15⟩ (by decide) (by decide)

/-- C2 (code bug): in resume mode `_save_batch` appends the ENTIRE
accumulated `processed_profiles` list on every trigger, so with
`batch_size = 1`, no pre-existing sink and two successful fetches, the
sink after the second batch save holds the rows `[u1, u1, u2]` — the row
for `u1` twice — violating the at-most-one-row-per-`linkedin_url`
invariant the claim states. -/
theorem c2_duplicate_rows_after_batch_save :
    (scrape_profiles demoCalc 1 true ["u1", "u2"] allSucceed none).snaps.map
      (fun s => (s.getD []).map (·.linkedin_url)) = [["u1"], ["u1", "u1", "u2"]] ∧
    ¬ (["u1", "u1", "u2"] : List String).Nodup := by
  refine ⟨by decide, by decide⟩

/-- C3 counterexample: with today = 2024-06-15, the bare 4-digit year
"2020" parses to 2020-06-15 — the fuzzy parser (tried first) fills the
missing month and day from today — not to January 1 as the claim's
grammar order requires. -/
theorem c3_counterexample :
    parse_date demoNow "2020" = some ⟨2020, 6, 15⟩ ∧
    some (⟨2020, 6, 15⟩ : PyDate) ≠ some (⟨2020, 1, 1⟩ : PyDate) := by
  refine ⟨by decide, by decide⟩

/-- C3 (amended): a bare 4-digit year with value in `datetime`'s 1..9999
range is resolved by the general fuzzy parse — which runs BEFORE the
bare-year rule — to that year with today's month and day (day clamped to
the month length); the January-1 rule is dead code for such strings. -/
theorem c3_bare_year_fuzzy_first (now : PyDate) (s : String)
    (h4 : s.data.length = 4) (hd : ∀ c ∈ s.data, isDigitChar c = true)
    (h1 : 1 ≤ digitsToNat s.data) :
    parse_date now s =
      some ⟨(digitsToNat s.data : Int), now.month,
        min now.day (daysInMonth (digitsToNat s.data : Int) now.month)⟩ := by
  have hne : s.data.isEmpty = false := by
    cases hl : s.data with
    | nil => rw [hl] at h4; simp at h4
    | cons c cs => rfl
  have hmap : s.data.map lowerChar = s.data := map_lower_of_digits s.data hd
  have htrim : trimChars s.data = s.data := trimChars_of_digits s.data hd
  have hnotlit : ¬(s.data = "present".data ∨ s.data = "current".data ∨
      s.data = "now".data) := by
    have l7 : ("present".data).length = 7 := rfl
    have l7b : ("current".data).length = 7 := rfl
    have l3 : ("now".data).length = 3 := rfl
    rintro (h | h | h) <;> (rw [h] at h4; omega)
  have hfour : fourDigits s.data = true := by
    simp only [fourDigits, Bool.and_eq_true, beq_iff_eq, List.all_eq_true]
    exact ⟨h4, hd⟩
  have hrange : 1 ≤ digitsToNat s.data ∧ digitsToNat s.data ≤ 9999 :=
    ⟨h1, digitsToNat_le_9999 s.data hd h4⟩
  have hdu : dateutilParse now s.data =
      some ⟨(digitsToNat s.data : Int), now.month,
        min now.day (daysInMonth (digitsToNat s.data : Int) now.month)⟩ := by
    rw [dateutilParse, if_pos hfour, if_pos hrange]
  rw [parse_date, if_neg (by rw [hne]; simp), hmap, htrim, if_neg hnotlit, hdu]

/-- C3 witness: the amended rule evaluated at "2020" with today =
2024-06-15 gives 2020-06-15. -/
theorem c3_bare_year_fuzzy_first_witness :
    parse_date demoNow "2020" = some ⟨2020, 6, 15⟩ := by
  rw [c3_bare_year_fuzzy_first demoNow "2020" rfl (by decide) (by decide)]
  decide

/-- C4 counterexample: an experience entry whose end ("2019") parses
earlier than its start ("2020") yields a NEGATIVE
`total_years_experience` of -1.0 — the months difference is signed and
never clamped — refuting the non-negativity half of the claim. -/
theorem c4_counterexample :
    (extract_profile_fields demoCalc negProfile "u").total_years_experience = -1 ∧
    ¬ (0 : ℚ) ≤ -1 := by
  constructor
  · with_unfolding_all rfl
  · norm_num

/-- C4 (amended): for every payload, the three `*_years*` fields of the
record `extract_profile_fields` produces are whole multiples of 0.5 (each
summand is `round(months/6)/2`); they are NOT always non-negative — see
the counterexample — since a reversed start/end pair contributes a
negative multiple. -/
theorem c4_years_half_multiples (C : Calc) (profile : List (String × PyVal))
    (url : String) :
    isHalfMultiple (extract_profile_fields C profile url).total_years_experience ∧
    isHalfMultiple (extract_profile_fields C profile url).years_at_target_companies ∧
    isHalfMultiple (extract_profile_fields C profile url).years_at_food_retailers :=
  expFold_half C (extract_experience_data profile) ⟨[], 0, 0, 0, "", none⟩
    isHalfMultiple_zero isHalfMultiple_zero isHalfMultiple_zero

/-- C5 counterexample: 5 successful fetches with `batch_size = 2` (fresh
mode, no pre-existing sink) produce two intermediate flushes writing 2 and
4 records — the whole accumulated buffer each time, not 2 each — and a
final flush of all 5 records, not 1. -/
theorem c5_counterexample :
    (scrape_profiles demoCalc 2 false ["u1", "u2", "u3", "u4", "u5"]
      allSucceed none).sizes = [2, 4] ∧
    (scrape_profiles demoCalc 2 false ["u1", "u2", "u3", "u4", "u5"]
      allSucceed none).finalSize = some 5 ∧
    ([2, 4] : List Nat) ≠ [2, 2] ∧ (some 5 : Option Nat) ≠ some 1 := by
  refine ⟨by decide, by decide, by decide, by decide⟩

/-- C5 (amended): in the 5-success / `batch_size = 2` scenario there are
exactly 2 intermediate flushes — triggered after every 2 accumulated
successes — but each writes the whole accumulated buffer (2 then 4
records), and the final flush writes all 5; because every fresh-mode
flush rewrites the sink, it still ends with exactly 5 rows plus header. -/
theorem c5_scenario_flushes :
    (scrape_profiles demoCalc 2 false ["u1", "u2", "u3", "u4", "u5"]
      allSucceed none).snaps.length = 2 ∧
    (scrape_profiles demoCalc 2 false ["u1", "u2", "u3", "u4", "u5"]
      allSucceed none).sizes = [2, 4] ∧
    (scrape_profiles demoCalc 2 false ["u1", "u2", "u3", "u4", "u5"]
      allSucceed none).finalSize = some 5 ∧
    (scrape_profiles demoCalc 2 false ["u1", "u2", "u3", "u4", "u5"]
      allSucceed none).finalSink.map List.length = some 5 := by
  refine ⟨by decide, by decide, by decide, by decide⟩

/-- C6 counterexample: when the MCP call returns a result with EMPTY
content, `fetch_profile` returns Python `None` (line 141) — the result
recorded for the identifier is not a tagged Success/Failure carrying the
originating identifier, refuting that part of the claim. -/
theorem c6_counterexample :
    fetch_profiles_batch 3 emptyRespOracle ["u1"] = [none] ∧
    ¬ ∃ r : FetchReturn, fetch_profile 3 (emptyRespOracle "u1") "u1" = some r := by
  constructor
  · decide
  · rintro ⟨r, hr⟩
    have hnone : fetch_profile 3 (emptyRespOracle "u1") "u1" = none := by decide
    rw [hnone] at hr
    cases hr

/-- C6 (amended): the executor emits exactly one result per input
identifier (each depending only on that identifier's own attempts, so a
failure never blocks the rest); any dict result carries the originating
identifier; and when every attempt raises, the result after `max_retries`
attempts is a Failure dict with the last error — but an empty-content
response yields Python `None` instead of a tagged outcome (see the
counterexample). -/
theorem c6_fetch_executor (m : Nat) (oracle : String → Nat → AttemptOut)
    (urls : List String) :
    (fetch_profiles_batch m oracle urls).length = urls.length ∧
    fetch_profiles_batch m oracle urls =
      urls.map (fun u => fetch_profile m (oracle u) u) ∧
    (∀ u r, fetch_profile m (oracle u) u = some r → r.url = u) ∧
    (∀ u, 0 < m → (∀ k, ∃ msg, oracle u k = .err msg) →
      ∃ msg, fetch_profile m (oracle u) u = some ⟨u, none, false, some msg⟩ ∧
        oracle u (m - 1) = .err msg) := by
  refine ⟨?_, rfl, ?_, ?_⟩
  · simp [fetch_profiles_batch]
  · intro u r h
    exact fetchGo_url (oracle u) u m m 0 r h
  · intro u hm he
    exact fetchGo_allerr (oracle u) u m he m 0 (by omega) hm

/-- C6 witness: with 3 retries and an always-raising oracle, two URLs get
two results and URL "a" ends in a failure dict carrying "a" and the last
error. -/
theorem c6_fetch_executor_witness :
    (fetch_profiles_batch 3 allErrOracle ["a", "b"]).length = 2 ∧
    (∃ msg, fetch_profile 3 (allErrOracle "a") "a" = some ⟨"a", none, false, some msg⟩ ∧
      allErrOracle "a" 2 = .err msg) := by
  constructor
  · exact (c6_fetch_executor 3 allErrOracle ["a", "b"]).1
  · exact (c6_fetch_executor 3 allErrOracle ["a", "b"]).2.2.2 "a" (by omega)
      (fun k => ⟨"boom", rfl⟩)

/-- C7: the duration contract — 0.0 when the start is unparsable; the
current instant substituted when the end is unparsable (in particular for
the literal "Present"); otherwise the whole-month difference
`(endYear-startYear)*12 + (endMonth-startMonth)` divided by 12 and rounded
to the nearest half via Python `round(years*2)/2` (banker's rounding;
`years*2 = months/6`). -/
theorem c7_duration_formula (now : PyDate) (s e : String) :
    (parse_date now s = none → calculate_duration now s e = 0) ∧
    (∀ ds de, parse_date now s = some ds → parse_date now e = some de →
      calculate_duration now s e =
        ((pyRound ((((de.year - ds.year) * 12 + (de.month - ds.month) : Int) : ℚ) / 6) : ℚ)) / 2) ∧
    (∀ ds, parse_date now s = some ds → parse_date now e = none →
      calculate_duration now s e =
        ((pyRound ((((now.year - ds.year) * 12 + (now.month - ds.month) : Int) : ℚ) / 6) : ℚ)) / 2) ∧
    (∀ ds, parse_date now s = some ds →
      calculate_duration now s "Present" =
        ((pyRound ((((now.year - ds.year) * 12 + (now.month - ds.month) : Int) : ℚ) / 6) : ℚ)) / 2) := by
  have hp : parse_date now "Present" = some now := rfl
  refine ⟨?_, ?_, ?_, ?_⟩
  · intro h
    simp [calculate_duration, h]
  · intro ds de hs he
    simp [calculate_duration, hs, he]
  · intro ds hs he
    simp [calculate_duration, hs, he]
  · intro ds hs
    simp [calculate_duration, hs, hp]

/-- C7 witness: "Jan 2018" to "Present" at now = 2024-01-01 is 72 whole
months, i.e. 6.0 years. -/
theorem c7_duration_formula_witness :
    calculate_duration ⟨2024, 1, 1⟩ "Jan 2018" "Present" = 6 := by
  have h := (c7_duration_formula ⟨2024, 1, 1⟩ "Jan 2018" "x").2.2.2
    ⟨2018, 1, 1⟩ (by decide)
  rw [h]
  with_unfolding_all rfl

/-- C8: `target_school` is the accepted fuzzy match of the FIRST education
entry (in iteration order) whose school name has a truthy match at or
above the threshold; later entries — whatever their scores — never
override it, as the result equals `findSome?` over the resolved school
names. -/
theorem c8_first_match_wins (C : Calc) (profile : List (String × PyVal)) (url : String) :
    (extract_profile_fields C profile url).target_school =
      (((extract_education_data profile).filterMap eduSchoolOf).findSome?
        (acceptedMatch C)).getD "" := by
  show (((extract_education_data profile).foldl (eduStep C) ([], none)).2).getD "" = _
  rw [eduFold_none]

/-- C9: the threshold boundary — whenever `extractOne` returns a best
match (its score bounds every reference's score), a best score of exactly
85 is accepted and the matched reference name returned, while a best score
of 84 is rejected. -/
theorem c9_threshold_boundary (C : Calc) (name : String) (hn : name ≠ "") :
    (∀ m s, extractOne C.scorer name C.target_schools = some (m, s) →
      ∀ r ∈ C.target_schools, C.scorer name r ≤ s) ∧
    (∀ m, extractOne C.scorer name C.target_schools = some (m, 85) →
      fuzzy_match_school C name = some m) ∧
    (∀ m, extractOne C.scorer name C.target_schools = some (m, 84) →
      fuzzy_match_school C name = none) := by
  refine ⟨?_, ?_, ?_⟩
  · intro m s hms r hr
    cases hcs : C.target_schools with
    | nil => rw [hcs] at hr; simp at hr
    | cons c cs =>
      rw [hcs] at hms
      simp only [extractOne, Option.some.injEq] at hms
      rw [hcs] at hr
      rcases List.mem_cons.mp hr with rfl | hr
      · have := extractBest_le C.scorer name cs (r, C.scorer name r)
        rw [hms] at this
        exact this
      · have := extractBest_bound C.scorer name cs (c, C.scorer name c) r hr
        rw [hms] at this
        exact this
  · intro m hm
    simp [fuzzy_match_school, hn, hm]
  · intro m hm
    simp [fuzzy_match_school, hn, hm]

/-- C9 witness: "Harvard" scoring 85 against the reference set is accepted
with the reference name returned; scoring 84 it is rejected. -/
theorem c9_threshold_boundary_witness :
    fuzzy_match_school harvardCalc "Harvard" = some "Harvard University" ∧
    fuzzy_match_school harvardCalc84 "Harvard" = none := by
  constructor
  · exact (c9_threshold_boundary harvardCalc "Harvard" (by decide)).2.1
      "Harvard University" (by decide)
  · exact (c9_threshold_boundary harvardCalc84 "Harvard" (by decide)).2.2
      "Harvard University" (by decide)

/-- C10: an experience entry with an empty/missing end competes for
`current_company` with end instant "now", while an entry with a non-empty
yet unparsable end has end instant `None`, never touches the
`current_company`/most-recent tracking, but still contributes its computed
duration (with "now" substituted inside the duration calculation) to the
running total. -/
theorem c10_unparsable_end (C : Calc) (st : ExpState) (kvs : List (String × PyVal)) :
    (expEndStr kvs = "" → expEndInstant C kvs = some C.now) ∧
    (expEndStr kvs ≠ "" → parse_date C.now (expEndStr kvs) = none →
      expEndInstant C kvs = none ∧
      (expStep C st (.dict kvs)).current = st.current ∧
      (expStep C st (.dict kvs)).mostRecent = st.mostRecent ∧
      (expStep C st (.dict kvs)).total = st.total + expDuration C kvs) := by
  constructor
  · intro h
    simp [expEndInstant, h]
  · intro h hp
    have he : expEndInstant C kvs = none := by simp [expEndInstant, h, hp]
    refine ⟨he, ?_, ?_, ?_⟩ <;> simp [expStep, he]

/-- C10 witness: the entry without an end field competes with end instant
"now"; the entry with end "unknown" leaves the tracking unchanged while
adding its duration to the total. -/
theorem c10_unparsable_end_witness :
    expEndInstant demoCalc noEndEntry = some demoCalc.now ∧
    (expEndInstant demoCalc unparsableEndEntry = none ∧
      (expStep demoCalc tieState (.dict unparsableEndEntry)).current = tieState.current ∧
      (expStep demoCalc tieState (.dict unparsableEndEntry)).mostRecent = tieState.mostRecent ∧
      (expStep demoCalc tieState (.dict unparsableEndEntry)).total =
        tieState.total + expDuration demoCalc unparsableEndEntry) := by
  constructor
  · exact (c10_unparsable_end demoCalc tieState noEndEntry).1 (by decide)
  · exact (c10_unparsable_end demoCalc tieState unparsableEndEntry).2 (by decide) (by decide)
